import Mathlib

/-!
# Verification of the tennis aggregation service (`main_api.py`)

A shallow embedding of the repository's code in Lean 4.

The program keeps a process-wide list `tennis_matches` of match records
(Python dicts), refreshed by a background loop `fetch_tennis_data` that
fetches from two provider adapters, merges the results with
`TennisMerger.merge`, and rebinds the global on success.  Two HTTP
handlers read the global: `get_tennis_matches` (GET /api/tennis) and
`get_match_details` (GET /api/tennis/match/{match_id}).

Python dicts are embedded as association lists of string key/value
pairs; a fetch or merge that may raise is embedded as `Except String`;
`datetime.now()` and `asyncio.sleep` durations are embedded as naturals.
-/

/-- A match record: a Python dict with string keys and values, embedded
as an association list (`bets_data`, `rapid_data` and the elements of
`tennis_matches` are such dicts). -/
abbrev TMatch := List (String × String)

/-- `m.get(k)`: Python `dict.get`, `None` when the key is absent. -/
def TMatch.get (m : TMatch) (k : String) : Option String :=
  List.lookup k m

/-- `tennis_matches = []` — the global store's initial value
(main_api.py line 29). -/
def initialTennisMatches : List TMatch := []

/-- The normal inter-cycle cooldown: `await asyncio.sleep(60)`
(main_api.py line 117). -/
def normalSleepSeconds : Nat := 60

/-- The backoff delay after a failed cycle: `await asyncio.sleep(10)`
in the `except` handler (main_api.py line 122). -/
def errorSleepSeconds : Nat := 10

/-- The JSON object returned by `get_tennis_matches`:
`{"timestamp": ..., "matches": ...}`. -/
structure TennisResponse where
  timestamp : Nat
  «matches» : List TMatch
deriving DecidableEq, Repr

/-- Handler for GET /api/tennis (main_api.py lines 40-49): returns the
current `tennis_matches` together with `datetime.now().isoformat()`,
the wall-clock time `now` at which the request is served. -/
def get_tennis_matches (tennis_matches : List TMatch) (now : Nat) : TennisResponse :=
  { timestamp := now, «matches» := tennis_matches }

/-- Modelled from the spec: the response `GET /matches` is specified to
return — the Snapshot's contents together with the Snapshot's own
capture timestamp (the time the snapshot was produced).  The code under
src/ stores no capture time, so this definition follows §6's words and
is compared against `get_tennis_matches` above. -/
def get_tennis_matches_spec (snapshot : List TMatch) (captureTime : Nat) : TennisResponse :=
  { timestamp := captureTime, «matches» := snapshot }

/-- Result of the GET /api/tennis/match/{match_id} handler: either a
match dict, or the not-found payload `{"error": "Match not found"}`
(returned with 404 in a tuple). -/
inductive MatchLookupResult where
  | found (m : TMatch)
  | notFound
deriving DecidableEq, Repr

/-- The `for match in tennis_matches` scan of `get_match_details`
(main_api.py lines 53-60): return the first dict whose `"match_id"`
value equals the requested id. -/
def findMatch : List TMatch → String → Option TMatch
  | [], _ => none
  | m :: rest, matchId =>
    if m.get "match_id" = some matchId then some m else findMatch rest matchId

/-- Handler for GET /api/tennis/match/{match_id} (main_api.py lines
51-63): linear scan over `tennis_matches`, first `match_id` equality
wins, not-found payload otherwise. -/
def get_match_details (tennis_matches : List TMatch) (match_id : String) : MatchLookupResult :=
  match findMatch tennis_matches match_id with
  | some m => .found m
  | none => .notFound

/-- The inputs one iteration of the `while True` loop of
`fetch_tennis_data` consumes: the outcome of
`betsapi_fetcher.get_tennis_data()`, the outcome of
`rapid_fetcher.get_tennis_data()` (each a record list, or a raised
exception embedded as `.error`), and the behaviour of
`TennisMerger().merge` on the fetched data (which may itself raise). -/
structure FetchInputs where
  betsRes : Except String (List TMatch)
  rapidRes : Except String (List TMatch)
  merge : List TMatch → List TMatch → Except String (List TMatch)

/-- The body of the `try:` block of one fetch cycle (main_api.py lines
89-117): `bets_data = await ...` then `rapid_data = await ...` then
`merged_data = merger.merge(bets_data, rapid_data)`.  The `await`s are
sequential, so a raise at any step aborts the rest of the block. -/
def cycleBody (inp : FetchInputs) : Except String (List TMatch) :=
  match inp.betsRes with
  | .error e => .error e
  | .ok bets_data =>
    match inp.rapidRes with
    | .error e => .error e
    | .ok rapid_data => inp.merge bets_data rapid_data

/-- One iteration of the `while True` loop of `fetch_tennis_data`
(main_api.py lines 85-122), `try`/`except Exception` included: on
success the global is rebound to the merged data and the loop sleeps 60
seconds; on any exception the global is left unchanged and the loop
sleeps 10 seconds.  Returns (new value of `tennis_matches`, sleep). -/
def runCycle (prev : List TMatch) (inp : FetchInputs) : List TMatch × Nat :=
  match cycleBody inp with
  | .ok merged_data => (merged_data, normalSleepSeconds)
  | .error _ => (prev, errorSleepSeconds)

/-- The states `tennis_matches` passes through when the loop consumes a
list of cycle inputs: the state before the first cycle, then the state
after each cycle. -/
def loopStates (prev : List TMatch) : List FetchInputs → List (List TMatch)
  | [] => [prev]
  | inp :: rest => prev :: loopStates (runCycle prev inp).1 rest

/-- The values the global `tennis_matches` can hold during the process
lifetime: its initial value, and the result of any number of fetch
cycles.  `tennis_matches` is written only at its initialisation (line
29) and at the single assignment `tennis_matches = merged_data` (line
112), so these steps are exhaustive. -/
inductive Reachable : List TMatch → Prop
  | init : Reachable initialTennisMatches
  | step (s : List TMatch) (inp : FetchInputs) :
      Reachable s → Reachable (runCycle s inp).1

/-- Observable events of one fetch cycle, in program order.  `start`
and `done`/`fail` bracket each awaited adapter call and the merge call;
`published` is the assignment to `tennis_matches`, `aborted` the jump
into the `except` handler. -/
inductive FetchEvent where
  | startBets | doneBets | failBets
  | startRapid | doneRapid | failRapid
  | startMerge | doneMerge | failMerge
  | published | aborted
deriving DecidableEq, Repr

/-- The event trace of one fetch cycle.  The body awaits the BetsAPI
fetch to completion before invoking the RapidAPI fetch (sequential
`await`s, main_api.py lines 97-104, no `asyncio.gather`), and a raise
anywhere jumps to the `except` handler. -/
def cycleEvents (inp : FetchInputs) : List FetchEvent :=
  match inp.betsRes with
  | .error _ => [.startBets, .failBets, .aborted]
  | .ok bets_data =>
    match inp.rapidRes with
    | .error _ => [.startBets, .doneBets, .startRapid, .failRapid, .aborted]
    | .ok rapid_data =>
      match inp.merge bets_data rapid_data with
      | .error _ =>
        [.startBets, .doneBets, .startRapid, .doneRapid, .startMerge, .failMerge, .aborted]
      | .ok _ =>
        [.startBets, .doneBets, .startRapid, .doneRapid, .startMerge, .doneMerge, .published]

/-!
## Reconciliation Engine (spec §4.2)

The repository imports `TennisMerger` from
`aggregator.sports.tennis.tennis_merger`, whose source file is not part
of the repository files available here; the engine below is therefore
modelled from the spec's own algorithm description.
-/

/-- Modelled from the spec: the provenance marker of a MatchEntity —
"matched, A-only, or B-only" (§3). -/
inductive Provenance where
  | matched
  | aOnly
  | bOnly
deriving DecidableEq, Repr

/-- Modelled from the spec: a provider's RawRecord (§3) — opaque
provider id, participant names, start time (seconds), and a mapping of
odds/metadata fields. -/
structure RawRecord where
  providerId : Nat
  participants : List String
  start : Int
  fields : List (String × String)
deriving DecidableEq, Repr

/-- Modelled from the spec: participant-name normalization (§4.2 step
1) — case-fold and strip punctuation, keeping alphanumeric characters
only. -/
def normalizeName (s : String) : String :=
  String.mk (s.toLower.toList.filter (fun c => c.isAlphanum))

/-- Modelled from the spec: the normalized participant set (§4.2 step
1) — names normalized and reordered (sorted) so that participant order
does not matter. -/
def normParticipants (ps : List String) : List String :=
  List.insertionSort (fun a b => a ≤ b) (ps.map normalizeName)

/-- Modelled from the spec: the clock-skew tolerance window, an
explicit tunable constant (§4.2 step 2), here five minutes in
seconds. -/
def timeToleranceSeconds : Int := 300

/-- Modelled from the spec: the time bucket of a start time (§4.2 step
2) — the start time rounded down to the tolerance window. -/
def timeBucket (t : Int) : Int := t / timeToleranceSeconds

/-- Modelled from the spec: the stable synthetic `match_id` (§3),
derived deterministically from the MatchKey (normalized participant
set and time bucket). -/
def makeMatchId (ps : List String) (t : Int) : String :=
  String.intercalate "|" (normParticipants ps) ++ "@" ++ toString (timeBucket t)

/-- Modelled from the spec: whether a B record is a matching candidate
for an A record (§4.2 step 3) — same normalized participant set and
start times within the tolerance window. -/
def candidateFor (a b : RawRecord) : Bool :=
  (normParticipants a.participants == normParticipants b.participants) &&
    decide ((a.start - b.start).natAbs ≤ timeToleranceSeconds.natAbs)

/-- Modelled from the spec: the candidate preference order (§4.2 step
3) — `closer a b1 b2` holds when `b1` beats `b2` for `a`: strictly
closer start time, or equally close with the lower provider id. -/
def closer (a b1 b2 : RawRecord) : Bool :=
  decide ((a.start - b1.start).natAbs < (a.start - b2.start).natAbs) ||
    ((a.start - b1.start).natAbs == (a.start - b2.start).natAbs &&
      decide (b1.providerId < b2.providerId))

/-- Modelled from the spec: pick the best candidate among a list of B
records (§4.2 step 3) — closest start time, tie broken by lowest
provider id, deterministic. -/
def pickBest (a : RawRecord) : List RawRecord → Option RawRecord
  | [] => none
  | b :: bs =>
    match pickBest a bs with
    | none => some b
    | some b2 => if closer a b b2 then some b else some b2

/-- Modelled from the spec: the greedy one-to-one matching pass (§4.2
step 3) — for each A record pick the best remaining B candidate; a
matched B record is removed from further candidacy.  Returns each A
record with its optional partner, and the unmatched B records. -/
def matchGreedy : List RawRecord → List RawRecord →
    List (RawRecord × Option RawRecord) × List RawRecord
  | [], bs => ([], bs)
  | a :: as, bs =>
    match pickBest a (bs.filter (fun b => candidateFor a b)) with
    | some b =>
      let rest := matchGreedy as (bs.erase b)
      ((a, some b) :: rest.1, rest.2)
    | none =>
      let rest := matchGreedy as bs
      ((a, none) :: rest.1, rest.2)

/-- Modelled from the spec: the unified MatchEntity (§3) — synthetic
`match_id`, participants, start, merged fields, provenance marker. -/
structure MatchEntity where
  match_id : String
  participants : List String
  start : Int
  fields : List (String × String)
  provenance : Provenance
deriving DecidableEq, Repr

/-- Modelled from the spec: the field merge for matched pairs (§4.2
step 4) — fields present in only one source pass through; on a
field-name collision the documented precedence applies, here: source
A (the pre-match feed) wins. -/
def mergeFields (fa fb : List (String × String)) : List (String × String) :=
  fa ++ fb.filter (fun kv => (List.lookup kv.1 fa).isNone)

/-- Modelled from the spec: build the MatchEntity for an A record and
its optional matched B partner (§4.2 steps 3-4). -/
def pairEntity (a : RawRecord) : Option RawRecord → MatchEntity
  | some b =>
    { match_id := makeMatchId a.participants a.start
      participants := normParticipants a.participants
      start := a.start
      fields := mergeFields a.fields b.fields
      provenance := .matched }
  | none =>
    { match_id := makeMatchId a.participants a.start
      participants := normParticipants a.participants
      start := a.start
      fields := a.fields
      provenance := .aOnly }

/-- Modelled from the spec: the single-source entity for an unmatched
B record (§4.2 step 3). -/
def bOnlyEntity (b : RawRecord) : MatchEntity :=
  { match_id := makeMatchId b.participants b.start
    participants := normParticipants b.participants
    start := b.start
    fields := b.fields
    provenance := .bOnly }

/-- The spec's output order on entities (§4.2 Guarantees): by start
time, ties broken by `match_id`. -/
def entityLE (e1 e2 : MatchEntity) : Prop :=
  e1.start < e2.start ∨ (e1.start = e2.start ∧ e1.match_id ≤ e2.match_id)

instance : DecidableRel entityLE := fun e1 e2 =>
  decidable_of_iff (e1.start < e2.start ∨ (e1.start = e2.start ∧ e1.match_id ≤ e2.match_id))
    Iff.rfl

instance : IsTotal MatchEntity entityLE where
  total a b := by
    unfold entityLE
    rcases lt_trichotomy a.start b.start with h | h | h
    · exact Or.inl (Or.inl h)
    · rcases le_total a.match_id b.match_id with h2 | h2
      · exact Or.inl (Or.inr ⟨h, h2⟩)
      · exact Or.inr (Or.inr ⟨h.symm, h2⟩)
    · exact Or.inr (Or.inl h)

instance : IsTrans MatchEntity entityLE where
  trans a b c hab hbc := by
    unfold entityLE at hab hbc ⊢
    rcases hab with h1 | ⟨e1, l1⟩
    · rcases hbc with h2 | ⟨e2, l2⟩
      · exact Or.inl (h1.trans h2)
      · exact Or.inl (e2 ▸ h1)
    · rcases hbc with h2 | ⟨e2, l2⟩
      · exact Or.inl (e1 ▸ h2)
      · exact Or.inr ⟨e1.trans e2, l1.trans l2⟩

/-- Modelled from the spec: `TennisMerger.merge` (the class the code
imports from `aggregator.sports.tennis.tennis_merger`, not among the
repository files here), following §4.2: normalize, match greedily
one-to-one, emit matched pairs and single-source leftovers, and order
the output stably by start time then `match_id`. -/
def TennisMerger.merge (recordsA recordsB : List RawRecord) : List MatchEntity :=
  let paired := matchGreedy recordsA recordsB
  let entities := paired.1.map (fun p => pairEntity p.1 p.2) ++ paired.2.map bOnlyEntity
  List.insertionSort entityLE entities

/-!
## Concrete inputs used by witnesses and counterexamples
-/

/-- A concrete match record. -/
def recA1 : TMatch := [("match_id", "101"), ("source", "rapid")]

/-- A concrete match record. -/
def recA2 : TMatch := [("match_id", "102"), ("source", "rapid")]

/-- A concrete match record. -/
def recA3 : TMatch := [("match_id", "103"), ("source", "rapid")]

/-- A cycle in which the BetsAPI fetch raises and the RapidAPI fetch
returns three records; the merger would concatenate. -/
def inpOneFail : FetchInputs :=
  { betsRes := .error "SourceUnavailable"
    rapidRes := .ok [recA1, recA2, recA3]
    merge := fun bets_data rapid_data => .ok (bets_data ++ rapid_data) }

/-- A cycle in which both adapter fetches raise. -/
def inpBothFail : FetchInputs :=
  { betsRes := .error "SourceUnavailable"
    rapidRes := .error "SourceUnavailable"
    merge := fun bets_data rapid_data => .ok (bets_data ++ rapid_data) }

/-- A cycle in which both fetches succeed but the merge itself
raises. -/
def inpMergeFail : FetchInputs :=
  { betsRes := .ok [recA1]
    rapidRes := .ok [recA2]
    merge := fun _ _ => .error "RecordMalformed" }

/-- A fully successful cycle. -/
def inpAllOk : FetchInputs :=
  { betsRes := .ok [recA1]
    rapidRes := .ok [recA2]
    merge := fun bets_data rapid_data => .ok (bets_data ++ rapid_data) }

/-!
## Theorems
-/

/-- The loop's state trace has one state per consumed cycle input plus
the initial state, whatever the inputs. -/
theorem loopStates_length (prev : List TMatch) (inps : List FetchInputs) :
    (loopStates prev inps).length = inps.length + 1 := by
  induction inps generalizing prev with
  | nil => rfl
  | cons inp rest ih => simp [loopStates, ih]

/-- C1 counterexample: the BetsAPI adapter fails with
`SourceUnavailable` while the RapidAPI adapter returns three records
(and the merge of the surviving records alone would yield exactly those
three records); the cycle nevertheless publishes nothing — the store
keeps its previous value and the loop backs off — contrary to the
claimed degraded single-source snapshot. -/
theorem one_failure_no_degraded_snapshot :
    runCycle initialTennisMatches inpOneFail = (initialTennisMatches, errorSleepSeconds) ∧
    inpOneFail.merge [] [recA1, recA2, recA3] = .ok [recA1, recA2, recA3] ∧
    [recA1, recA2, recA3] ≠ initialTennisMatches := by
  refine ⟨rfl, rfl, ?_⟩
  decide

/-- C1 (amended): when exactly one of the two adapter fetches fails,
the cycle is abandoned exactly like a total failure: `tennis_matches`
is left unchanged and the loop sleeps the short backoff delay; no
degraded single-source snapshot is published. -/
theorem one_adapter_failure_aborts_cycle (prev : List TMatch) (inp : FetchInputs)
    (h : ((∃ e, inp.betsRes = .error e) ∧ ∃ rs, inp.rapidRes = .ok rs) ∨
         ((∃ bs, inp.betsRes = .ok bs) ∧ ∃ e, inp.rapidRes = .error e)) :
    runCycle prev inp = (prev, errorSleepSeconds) := by
  rcases h with ⟨⟨e, hb⟩, ⟨rs, hr⟩⟩ | ⟨⟨bs, hb⟩, ⟨e, hr⟩⟩ <;>
    simp [runCycle, cycleBody, hb, hr]

/-- Witness for `one_adapter_failure_aborts_cycle` at the concrete
one-failure cycle. -/
theorem one_adapter_failure_aborts_cycle_witness :
    runCycle [recA2] inpOneFail = ([recA2], errorSleepSeconds) :=
  one_adapter_failure_aborts_cycle [recA2] inpOneFail
    (Or.inl ⟨⟨"SourceUnavailable", rfl⟩, ⟨[recA1, recA2, recA3], rfl⟩⟩)

/-- C2: when both adapter fetches fail, or both succeed and the merge
step itself raises, the cycle is abandoned: the previously published
`tennis_matches` is left unchanged (no write to the store) and the
loop sleeps the short backoff delay, which is distinct from the normal
inter-cycle cooldown. -/
theorem total_failure_keeps_snapshot (prev : List TMatch) (inp : FetchInputs)
    (h : ((∃ e, inp.betsRes = .error e) ∧ ∃ e2, inp.rapidRes = .error e2) ∨
         (∃ bs rs e, inp.betsRes = .ok bs ∧ inp.rapidRes = .ok rs ∧
           inp.merge bs rs = .error e)) :
    runCycle prev inp = (prev, errorSleepSeconds) ∧
    errorSleepSeconds ≠ normalSleepSeconds := by
  refine ⟨?_, by decide⟩
  rcases h with ⟨⟨e, hb⟩, ⟨e2, hr⟩⟩ | ⟨bs, rs, e, hb, hr, hm⟩
  · simp [runCycle, cycleBody, hb, hr]
  · simp [runCycle, cycleBody, hb, hr, hm]

/-- Witness for `total_failure_keeps_snapshot`: both adapters fail
while the store holds a prior snapshot; the snapshot is retained. -/
theorem total_failure_keeps_snapshot_witness :
    runCycle [recA1] inpBothFail = ([recA1], errorSleepSeconds) ∧
    errorSleepSeconds ≠ normalSleepSeconds :=
  total_failure_keeps_snapshot [recA1] inpBothFail
    (Or.inl ⟨⟨"SourceUnavailable", rfl⟩, ⟨"SourceUnavailable", rfl⟩⟩)

/-- C3 counterexample: with the store holding one match, a snapshot
whose capture time the spec takes to be 5, and a request served at
time 7, GET /api/tennis returns timestamp 7 — the request time — while
the spec's response would carry the capture time 5. -/
theorem timestamp_is_request_time :
    (get_tennis_matches [recA1] 7).timestamp = 7 ∧
    get_tennis_matches [recA1] 7 ≠ get_tennis_matches_spec [recA1] 5 := by
  refine ⟨rfl, ?_⟩
  decide

/-- C3 (amended): GET /api/tennis returns the current store's matches
together with `datetime.now()` — the time the request is served — as
the timestamp; the code stores no capture time for the snapshot. -/
theorem get_tennis_matches_returns_store_and_now (tennis_matches : List TMatch) (now : Nat) :
    (get_tennis_matches tennis_matches now).«matches» = tennis_matches ∧
    (get_tennis_matches tennis_matches now).timestamp = now :=
  ⟨rfl, rfl⟩

/-- C4: every value the `tennis_matches` store can hold is either the
complete initial snapshot or the complete merged output of one
successful cycle — never a partially merged state: publication is the
single assignment performed by the refresh cycle, the store's only
writer in the model. -/
theorem snapshot_store_complete (s : List TMatch) (h : Reachable s) :
    s = initialTennisMatches ∨
    ∃ (inp : FetchInputs) (bs rs : List TMatch), inp.betsRes = Except.ok bs ∧ inp.rapidRes = Except.ok rs ∧
      inp.merge bs rs = Except.ok s := by
  induction h with
  | init => exact Or.inl rfl
  | step s2 inp hr ih =>
    rcases hcb : cycleBody inp with e | merged
    · have hkeep : (runCycle s2 inp).1 = s2 := by simp [runCycle, hcb]
      rw [hkeep]
      exact ih
    · have hpub : (runCycle s2 inp).1 = merged := by simp [runCycle, hcb]
      rw [hpub]
      right
      rcases hb : inp.betsRes with eb | bs
      · simp [cycleBody, hb] at hcb
      · rcases hrr : inp.rapidRes with er | rs
        · simp [cycleBody, hb, hrr] at hcb
        · simp only [cycleBody, hb, hrr] at hcb
          exact ⟨inp, bs, rs, hb, hrr, hcb⟩

/-- Witness for `snapshot_store_complete` at the initial state. -/
theorem snapshot_store_complete_witness :
    initialTennisMatches = initialTennisMatches ∨
    ∃ (inp : FetchInputs) (bs rs : List TMatch), inp.betsRes = Except.ok bs ∧ inp.rapidRes = Except.ok rs ∧
      inp.merge bs rs = Except.ok initialTennisMatches :=
  snapshot_store_complete initialTennisMatches Reachable.init

/-- C5: no error escapes a cycle: the loop produces a successor state
for every cycle input whatever its outcome (the state trace always has
one state per cycle plus the initial state), and a cycle whose body
raises anywhere is caught at the cycle boundary, keeping the store and
moving on with the backoff delay. -/
theorem loop_survives_errors (prev : List TMatch) (inps : List FetchInputs)
    (inp : FetchInputs) (e : String) (h : cycleBody inp = .error e) :
    (loopStates prev inps).length = inps.length + 1 ∧
    runCycle prev inp = (prev, errorSleepSeconds) := by
  refine ⟨loopStates_length prev inps, ?_⟩
  simp [runCycle, h]

/-- Witness for `loop_survives_errors`: a trace of three failing
cycles, one of them failing inside the merge itself. -/
theorem loop_survives_errors_witness :
    (loopStates initialTennisMatches [inpBothFail, inpOneFail, inpMergeFail]).length =
      [inpBothFail, inpOneFail, inpMergeFail].length + 1 ∧
    runCycle initialTennisMatches inpMergeFail = (initialTennisMatches, errorSleepSeconds) :=
  loop_survives_errors initialTennisMatches [inpBothFail, inpOneFail, inpMergeFail]
    inpMergeFail "RecordMalformed" rfl

/-- C6: GET /api/tennis/match/{match_id} either returns a match of the
current store whose `match_id` field equals the requested id, or
returns the not-found payload, and it returns the not-found payload
exactly when no stored match carries that id. -/
theorem get_match_details_found_or_not (tennis_matches : List TMatch) (match_id : String) :
    (∃ m, get_match_details tennis_matches match_id = .found m ∧ m ∈ tennis_matches ∧
      m.get "match_id" = some match_id) ∨
    (get_match_details tennis_matches match_id = .notFound ∧
      ∀ m ∈ tennis_matches, m.get "match_id" ≠ some match_id) := by
  induction tennis_matches with
  | nil => exact Or.inr ⟨rfl, by simp⟩
  | cons m rest ih =>
    by_cases hm : m.get "match_id" = some match_id
    · exact Or.inl ⟨m, by simp [get_match_details, findMatch, hm], by simp, hm⟩
    · have hstep : get_match_details (m :: rest) match_id
          = get_match_details rest match_id := by
        simp [get_match_details, findMatch, hm]
      rcases ih with ⟨m2, hfound, hmem, hid⟩ | ⟨hnf, hall⟩
      · exact Or.inl ⟨m2, hstep.trans hfound, List.mem_cons_of_mem _ hmem, hid⟩
      · refine Or.inr ⟨hstep.trans hnf, ?_⟩
        intro m2 hm2
        rcases List.mem_cons.mp hm2 with h2 | h2
        · exact h2 ▸ hm
        · exact hall m2 h2

/-- C7: the modelled merge is deterministic and idempotent — two
evaluations on identical inputs yield identical output, hence the same
`match_id` set, the same field values and the same ordering — and the
output order is the stable order by start time then `match_id`. -/
theorem merge_deterministic_sorted (recordsA recordsB : List RawRecord) :
    TennisMerger.merge recordsA recordsB = TennisMerger.merge recordsA recordsB ∧
    List.Sorted entityLE (TennisMerger.merge recordsA recordsB) := by
  refine ⟨rfl, ?_⟩
  unfold TennisMerger.merge
  exact List.sorted_insertionSort entityLE _

/-- C8 counterexample: in a cycle where the BetsAPI fetch fails while
the RapidAPI adapter has records to return, the RapidAPI fetch is
never invoked at all — the two fetches are not invoked concurrently in
every cycle, and the cycle does not wait for both results. -/
theorem rapid_fetch_skipped_on_bets_failure :
    FetchEvent.startRapid ∉ cycleEvents inpOneFail ∧
    FetchEvent.startBets ∈ cycleEvents inpOneFail := by
  decide

/-- C8 (amended): the two adapter fetches are invoked sequentially,
not concurrently: whenever the RapidAPI fetch starts in a cycle, the
BetsAPI fetch has already completed successfully earlier in that
cycle's trace (so a BetsAPI failure means the RapidAPI fetch is never
invoked that cycle). -/
theorem fetches_sequential (inp : FetchInputs)
    (h : FetchEvent.startRapid ∈ cycleEvents inp) :
    (cycleEvents inp).indexOf FetchEvent.doneBets <
      (cycleEvents inp).indexOf FetchEvent.startRapid ∧
    ∃ bs, inp.betsRes = Except.ok bs := by
  obtain ⟨b, r, mg⟩ := inp
  rcases b with eb | bs
  · simp [cycleEvents] at h
  · refine ⟨?_, bs, rfl⟩
    rcases r with er | rs
    · simp only [cycleEvents]
      decide
    · rcases hmg : mg bs rs with em | ms <;>
        simp only [cycleEvents, hmg] <;> decide

/-- Witness for `fetches_sequential` at a fully successful cycle. -/
theorem fetches_sequential_witness :
    (cycleEvents inpAllOk).indexOf FetchEvent.doneBets <
      (cycleEvents inpAllOk).indexOf FetchEvent.startRapid ∧
    ∃ bs, inpAllOk.betsRes = Except.ok bs :=
  fetches_sequential inpAllOk (by decide)

/-- C9: before any cycle has published (the store still holding its
initial value), GET /api/tennis returns a well-formed response whose
matches field is the empty sequence, together with a timestamp — not
an error. -/
theorem initial_response_empty (now : Nat) :
    (get_tennis_matches initialTennisMatches now).«matches» = [] ∧
    (get_tennis_matches initialTennisMatches now).timestamp = now :=
  ⟨rfl, rfl⟩

/-- C10: when the store contains several matches with the same
`match_id`, the single-match endpoint returns the first one in store
order: the linear scan stops at the first `match_id` equality. -/
theorem get_match_details_first (msPre msPost : List TMatch) (m : TMatch) (match_id : String)
    (hpre : ∀ m2 ∈ msPre, m2.get "match_id" ≠ some match_id)
    (hm : m.get "match_id" = some match_id) :
    get_match_details (msPre ++ m :: msPost) match_id = .found m := by
  induction msPre with
  | nil => simp [get_match_details, findMatch, hm]
  | cons p rest ih =>
    have hp : p.get "match_id" ≠ some match_id := hpre p (by simp)
    have hstep : get_match_details ((p :: rest) ++ m :: msPost) match_id
        = get_match_details (rest ++ m :: msPost) match_id := by
      simp [get_match_details, findMatch, hp]
    rw [hstep]
    exact ih (fun m2 hm2 => hpre m2 (List.mem_cons_of_mem _ hm2))

/-- A record sharing its `match_id` with `dupRapid`. -/
def dupBets : TMatch := [("match_id", "201"), ("source", "bets")]

/-- A record sharing its `match_id` with `dupBets`. -/
def dupRapid : TMatch := [("match_id", "201"), ("source", "rapid")]

/-- A record with a different `match_id`. -/
def otherRec : TMatch := [("match_id", "202")]

/-- Witness for `get_match_details_first`: two records share
`match_id` 201 and the scan returns the earlier one. -/
theorem get_match_details_first_witness :
    get_match_details ([otherRec] ++ dupBets :: [dupRapid]) "201" = .found dupBets :=
  get_match_details_first [otherRec] [dupRapid] dupBets "201" (by decide) (by decide)
